import Mathlib

/-!
# `oc create identity`: Complete / Run of `CreateIdentityOptions`

Shallow embedding of `pkg/cli/create/identity.go`.

* Go strings are Lean `String`s; `strings.Split(s, ":")` is embedded after the
  loop of the Go standard library (`Count`, `Index`, then cut and continue).
* The collaborators that the file calls but does not define (REST config
  resolution, client construction, the shared sub-command completion, the
  annotation helper, the identity client and the printer) are parameters.
* Effects of `Run` (the create request, the print call) are recorded in an
  explicit trace.
-/

namespace CreateIdentity

/-! ## Go strings and `strings.Split` for the separator `":"` -/

/-- Go `strings.Count(s, ":")`: the number of `':'` in `s`. -/
def Count : List Char → Nat
  | [] => 0
  | c :: cs => if c = ':' then Count cs + 1 else Count cs

/-- Go `strings.Index(s, ":")`: position of the first `':'`, `none` for Go's `-1`. -/
def Index : List Char → Option Nat
  | [] => none
  | c :: cs => if c = ':' then some 0 else (Index cs).map (· + 1)

/-- The loop of Go `genSplit` with a one-byte separator: at most `n` cuts, each at
the first separator (`a[i] = s[:m]; s = s[m+1:]`), the rest of `s` is the last
element. -/
def splitLoop : Nat → List Char → List (List Char)
  | 0, s => [s]
  | n + 1, s =>
    match Index s with
    | none => [s]
    | some m => s.take m :: splitLoop n (s.drop (m + 1))

/-- Go `strings.Split(s, ":")`: `genSplit(s, ":", 0, -1)`, where the number of
pieces is `Count(s, ":") + 1`, hence `Count(s, ":")` cuts. -/
def Split (s : String) : List String :=
  (splitLoop (Count s.data) s.data).map String.mk


/-! ## Data model -/

/-- A Go `error` value, identified by its message. -/
structure GoError where
  msg : String
deriving DecidableEq, Repr

/-- Fields of `metav1.TypeMeta`. -/
structure TypeMeta where
  Kind : String := ""
  APIVersion : String := ""
deriving DecidableEq, Repr

/-- Fields of `metav1.ObjectMeta` (maps are association lists, the zero map is
empty). -/
structure ObjectMeta where
  Name : String := ""
  GenerateName : String := ""
  Namespace : String := ""
  UID : String := ""
  ResourceVersion : String := ""
  Generation : Int := 0
  Labels : List (String × String) := []
  Annotations : List (String × String) := []
deriving DecidableEq, Repr

/-- Fields of `corev1.ObjectReference`. -/
structure ObjectReference where
  Kind : String := ""
  Namespace : String := ""
  Name : String := ""
  UID : String := ""
  APIVersion : String := ""
  ResourceVersion : String := ""
  FieldPath : String := ""
deriving DecidableEq, Repr

/-- The resource `userv1.Identity`. -/
structure Identity where
  TypeMeta : TypeMeta := {}
  ObjectMeta : ObjectMeta := {}
  ProviderName : String := ""
  ProviderUserName : String := ""
  User : ObjectReference := {}
  Extra : List (String × String) := []
deriving DecidableEq, Repr

/-- Fields of `metav1.CreateOptions`; `{}` is the Go literal `metav1.CreateOptions{}`. -/
structure CreateOptions where
  DryRun : List String := []
  FieldManager : String := ""
  FieldValidation : String := ""
deriving DecidableEq, Repr

/-- The three values of `cmdutil.DryRunStrategy`. -/
inductive DryRunStrategy where
  | DryRunNone
  | DryRunClient
  | DryRunServer
deriving DecidableEq, Repr

/-- An `io.Writer`, identified by a descriptor. -/
structure Writer where
  fd : Nat
deriving DecidableEq, Repr

/-- A `printers.ResourcePrinter`: `PrintObj(obj, w)` returns an error or nil. -/
structure ResourcePrinter where
  PrintObj : Identity → Writer → Option GoError

/-- The fields of the shared `CreateSubcommandOptions` that `identity.go` reads. -/
structure CreateSubcommandOptions where
  Name : String
  DryRunStrategy : DryRunStrategy
  CreateAnnotation : Bool
  Printer : ResourcePrinter
  Out : Writer

/-- A `userv1client.IdentitiesGetter`: `Identities().Create(ctx, identity, opts)`
returns the stored object or an error. -/
structure IdentitiesGetter where
  Create : Identity → CreateOptions → Except GoError Identity

/-- A `rest.Config`. -/
structure RESTConfig where
  Host : String
deriving DecidableEq, Repr

/-- A `genericclioptions.RESTClientGetter`, as far as `Complete` uses it. -/
structure RESTClientGetter where
  ToRESTConfig : Except GoError RESTConfig

/-- A `cobra.Command`; `Complete` only hands it on. -/
structure Command where
  Use : String
deriving DecidableEq, Repr

/-- The functions and values `identity.go` takes from other packages. -/
structure Collaborators where
  /-- The package function `userv1client.NewForConfig`. -/
  NewForConfig : RESTConfig → Except GoError IdentitiesGetter
  /-- The method `(*CreateSubcommandOptions).Complete(f, cmd, args)`: the receiver
  after the call and the returned error. -/
  SubcommandComplete :
    CreateSubcommandOptions → RESTClientGetter → Command → List String →
      CreateSubcommandOptions × Option GoError
  /-- The helper `util.CreateOrUpdateAnnotation(createAnnotation, obj, codec)`: the
  object after the call, or the returned error. -/
  CreateOrUpdateAnnotation : Bool → Identity → Except GoError Identity
  /-- The value of `userv1.SchemeGroupVersion.String()`. -/
  SchemeGroupVersionString : String

/-- The struct `CreateIdentityOptions`; a nil `IdentityClient` is `none`. -/
structure CreateIdentityOptions where
  CreateSubcommandOptions : CreateSubcommandOptions
  ProviderName : String
  ProviderUserName : String
  IdentityClient : Option IdentitiesGetter

/-! ## `Complete` -/

/-- The error built by `fmt.Errorf` in `Complete`. -/
def formatError : GoError :=
  ⟨"identity name in the format <PROVIDER_NAME>:<PROVIDER_USER_NAME> is required"⟩

/-- The method `(*CreateIdentityOptions).Complete`: the receiver after the call and
the returned error (`none` is nil). `o.IdentityClient` is assigned together with
`err`, so a failed client construction leaves no usable client. -/
def Complete (env : Collaborators) (o : CreateIdentityOptions) (cmd : Command)
    (f : RESTClientGetter) (args : List String) : CreateIdentityOptions × Option GoError :=
  match f.ToRESTConfig with
  | .error err => (o, some err)
  | .ok clientConfig =>
    match env.NewForConfig clientConfig with
    | .error err => ({ o with IdentityClient := none }, some err)
    | .ok client =>
      let o1 := { o with IdentityClient := some client }
      let r := env.SubcommandComplete o1.CreateSubcommandOptions f cmd args
      let o2 := { o1 with CreateSubcommandOptions := r.1 }
      match r.2 with
      | some err => (o2, some err)
      | none =>
        let parts := Split o2.CreateSubcommandOptions.Name
        if h : parts.length ≠ 2 then
          (o2, some formatError)
        else
          have h2 : parts.length = 2 := not_not.mp h
          ({ o2 with
              ProviderName := parts.get ⟨0, by omega⟩
              ProviderUserName := parts.get ⟨1, by omega⟩ }, none)

/-! ## `Run` -/

/-- What `Run` does to the outside: a create request with its object and options,
a print call with its object and stream. -/
inductive Event where
  | create (obj : Identity) (opts : CreateOptions)
  | print (obj : Identity) (out : Writer)
deriving DecidableEq, Repr

/-- How a call ends: it returns an error value (`none` is nil) or it panics. -/
inductive Outcome where
  | returned (err : Option GoError)
  | panicked
deriving DecidableEq, Repr

/-- The outcome of `Run` and the events it caused, in order. -/
structure RunResult where
  outcome : Outcome
  trace : List Event
deriving DecidableEq, Repr

/-- The struct literal at the head of `Run`. -/
def newIdentity (env : Collaborators) (o : CreateIdentityOptions) : Identity :=
  { TypeMeta := { APIVersion := env.SchemeGroupVersionString, Kind := "Identity" }
    ProviderName := o.ProviderName
    ProviderUserName := o.ProviderUserName }

/-- The method `(*CreateIdentityOptions).Run`. Calling `Identities()` on a nil
`IdentityClient` panics. -/
def Run (env : Collaborators) (o : CreateIdentityOptions) : RunResult :=
  let sub := o.CreateSubcommandOptions
  match env.CreateOrUpdateAnnotation sub.CreateAnnotation (newIdentity env o) with
  | .error err => ⟨.returned (some err), []⟩
  | .ok identity =>
    if sub.DryRunStrategy ≠ .DryRunClient then
      match o.IdentityClient with
      | none => ⟨.panicked, []⟩
      | some client =>
        match client.Create identity {} with
        | .error err => ⟨.returned (some err), [.create identity {}]⟩
        | .ok created =>
          ⟨.returned (sub.Printer.PrintObj created sub.Out),
            [.create identity {}, .print created sub.Out]⟩
    else
      ⟨.returned (sub.Printer.PrintObj identity sub.Out), [.print identity sub.Out]⟩

/-! ## The command's `Run` handler -/

/-- The handler installed by `NewCmdCreateIdentity`:
`CheckErr(o.Complete(cmd, f, args)); CheckErr(o.Run())`. `CheckErr` ends the
process on a non-nil error, so `Run` is reached only after `Complete` returned
nil. The result carries the options after the handler, the outcome and the
events. -/
def runCommand (env : Collaborators) (o : CreateIdentityOptions) (cmd : Command)
    (f : RESTClientGetter) (args : List String) : CreateIdentityOptions × RunResult :=
  let c := Complete env o cmd f args
  match c.2 with
  | some err => (c.1, ⟨.returned (some err), []⟩)
  | none => (c.1, Run env c.1)

/-! ## Derived notions used in the statements -/

/-- The create requests of a trace, in order. -/
def createRequests : List Event → List (Identity × CreateOptions)
  | [] => []
  | .create obj opts :: es => (obj, opts) :: createRequests es
  | .print _ _ :: es => createRequests es

/-- The print calls of a trace, in order. -/
def printCalls : List Event → List (Identity × Writer)
  | [] => []
  | .create _ _ :: es => printCalls es
  | .print obj out :: es => (obj, out) :: printCalls es

/-- The option state `o` with its dry-run strategy replaced by `s`. -/
def withDryRunStrategy (o : CreateIdentityOptions) (s : DryRunStrategy) :
    CreateIdentityOptions :=
  { o with CreateSubcommandOptions := { o.CreateSubcommandOptions with DryRunStrategy := s } }

/-- The wording of the specification for a valid argument, to be compared with the
check in `Complete`: `spec` splits on `':'` into exactly two non-empty segments. -/
def specTwoNonEmptySegments (spec : String) : Bool :=
  match Split spec with
  | [a, b] => a ≠ "" && b ≠ ""
  | _ => false

/-- Modelled from the spec: the helper `util.CreateOrUpdateAnnotation` belongs to
k8s.io/kubectl and is not under src/. The specification says of it: "if a record
command annotation flag was supplied, stamp the resource with the literal command
line". The annotation key `key` and the invoked command line `commandLine` are
parameters; without the flag the object is left as it is. -/
def specCreateOrUpdateAnnotation (key commandLine : String) ( createAnnotation : Bool)
    (obj : Identity) : Except GoError Identity :=
  if createAnnotation then
    .ok { obj with
      ObjectMeta := { obj.ObjectMeta with
        Annotations :=
          (key, commandLine) :: obj.ObjectMeta.Annotations.filter (fun kv => kv.1 ≠ key) } }
  else
    .ok obj

/-! ## Sample collaborators, for the concrete instances -/

/-- A printer that accepts every object. -/
def samplePrinter : ResourcePrinter := ⟨fun _ _ => none⟩

/-- A printer that rejects every object. -/
def failingPrinter : ResourcePrinter := ⟨fun _ _ => some ⟨"unable to print"⟩⟩

/-- A client whose server stores the object and assigns a name, a UID and a
resource version. -/
def sampleClient : IdentitiesGetter :=
  ⟨fun obj _ => .ok { obj with
      ObjectMeta := { obj.ObjectMeta with
        Name := obj.ProviderName ++ ":" ++ obj.ProviderUserName
        UID := "5f3e"
        ResourceVersion := "101" } }⟩

/-- A client whose server refuses every create request. -/
def failingClient : IdentitiesGetter := ⟨fun _ _ => .error ⟨"identities is forbidden"⟩⟩

/-- Shared completion: the single positional argument becomes the name. -/
def sampleSubcommandComplete (sub : CreateSubcommandOptions) (_f : RESTClientGetter)
    (_cmd : Command) (args : List String) : CreateSubcommandOptions × Option GoError :=
  match args with
  | [name] => ({ sub with Name := name }, none)
  | _ => (sub, some ⟨"exactly one NAME is required"⟩)

/-- Collaborators that all succeed; the annotation helper leaves the object as it is. -/
def sampleEnv : Collaborators :=
  { NewForConfig := fun _ => .ok sampleClient
    SubcommandComplete := sampleSubcommandComplete
    CreateOrUpdateAnnotation := fun _ obj => .ok obj
    SchemeGroupVersionString := "user.openshift.io/v1" }

/-- Collaborators whose client construction fails. -/
def noClientEnv : Collaborators :=
  { sampleEnv with NewForConfig := fun _ => .error ⟨"invalid configuration"⟩ }

/-- Collaborators whose annotation helper fails. -/
def noAnnotationEnv : Collaborators :=
  { sampleEnv with CreateOrUpdateAnnotation := fun _ _ => .error ⟨"unable to encode"⟩ }

/-- Collaborators whose annotation helper is the one modelled from the specification. -/
def recordingEnv : Collaborators :=
  { sampleEnv with
    CreateOrUpdateAnnotation :=
      specCreateOrUpdateAnnotation "command" "oc create identity acme_ldap:adamjones" }

/-- A client getter whose configuration resolves. -/
def sampleGetter : RESTClientGetter := ⟨.ok ⟨"https://api.example.com:6443"⟩⟩

/-- A client getter whose configuration does not resolve. -/
def failingGetter : RESTClientGetter := ⟨.error ⟨"no configuration has been provided"⟩⟩

/-- The command value of the samples. -/
def sampleCommand : Command := ⟨"identity <PROVIDER_NAME>:<PROVIDER_USER_NAME>"⟩

/-- The option state as `NewCmdCreateIdentity` leaves it, with strategy `s` and
annotation flag `a`. -/
def initialOptions (s : DryRunStrategy) (a : Bool) : CreateIdentityOptions :=
  { CreateSubcommandOptions :=
      { Name := "", DryRunStrategy := s, CreateAnnotation := a, Printer := samplePrinter,
        Out := ⟨1⟩ }
    ProviderName := ""
    ProviderUserName := ""
    IdentityClient := none }

/-- An option state as a successful `Complete` leaves it for `acme_ldap:adamjones`. -/
def completedOptions (s : DryRunStrategy) (a : Bool) (client : IdentitiesGetter) :
    CreateIdentityOptions :=
  { CreateSubcommandOptions :=
      { Name := "acme_ldap:adamjones", DryRunStrategy := s, CreateAnnotation := a,
        Printer := samplePrinter, Out := ⟨1⟩ }
    ProviderName := "acme_ldap"
    ProviderUserName := "adamjones"
    IdentityClient := some client }

/-! ## Facts about `Split` -/

theorem Count_append (a b : List Char) : Count (a ++ b) = Count a + Count b := by
  induction a with
  | nil => simp [Count]
  | cons c cs ih =>
    by_cases h : c = ':'
    · simp [Count, h, ih]; omega
    · simp [Count, h, ih]

theorem Count_eq_zero_iff (s : List Char) : Count s = 0 ↔ ':' ∉ s := by
  induction s with
  | nil => simp [Count]
  | cons c cs ih =>
    by_cases h : c = ':'
    · simp [Count, h]
    · have h2 : ¬ ':' = c := fun e => h e.symm
      simp [Count, h, h2, ih]

theorem Index_eq_none_iff (s : List Char) : Index s = none ↔ Count s = 0 := by
  induction s with
  | nil => simp [Index, Count]
  | cons c cs ih =>
    by_cases h : c = ':'
    · simp [Index, Count, h]
    · simp [Index, Count, h, ih]

theorem Count_drop_of_Index (s : List Char) (m : Nat) (h : Index s = some m) :
    Count (s.drop (m + 1)) + 1 = Count s := by
  induction s generalizing m with
  | nil => simp [Index] at h
  | cons c cs ih =>
    by_cases hc : c = ':'
    · simp [Index, hc] at h
      subst h
      simp [Count, hc]
    · simp [Index, hc] at h
      obtain ⟨k, hk, rfl⟩ := h
      simpa [Count, hc] using ih k hk

theorem Index_append_colon (p u : List Char) (hp : ':' ∉ p) :
    Index (p ++ ':' :: u) = some p.length := by
  induction p with
  | nil => simp [Index]
  | cons c cs ih =>
    have hc : c ≠ ':' := fun e => hp (by simp [e])
    have hcs : ':' ∉ cs := fun e => hp (by simp [e])
    simp [Index, hc, ih hcs]

theorem length_splitLoop (n : Nat) (s : List Char) (h : n ≤ Count s) :
    (splitLoop n s).length = n + 1 := by
  induction n generalizing s with
  | zero => simp [splitLoop]
  | succ n ih =>
    cases hi : Index s with
    | none =>
      have := (Index_eq_none_iff s).mp hi
      omega
    | some m =>
      have hd := Count_drop_of_Index s m hi
      have := ih (s.drop (m + 1)) (by omega)
      simp [splitLoop, hi, this]

theorem length_Split (s : String) : (Split s).length = Count s.data + 1 := by
  simp [Split, length_splitLoop]

theorem Split_pair (p u : String) (hp : ':' ∉ p.data) (hu : ':' ∉ u.data) :
    Split (p ++ ":" ++ u) = [p, u] := by
  have hd : (p ++ ":" ++ u).data = p.data ++ ':' :: u.data := by
    simp [String.data_append]
  have hc : Count (p.data ++ ':' :: u.data) = 1 := by
    have h1 := (Count_eq_zero_iff p.data).mpr hp
    have h2 := (Count_eq_zero_iff u.data).mpr hu
    simp [Count_append, Count, h1, h2]
  have hdrop : List.drop (p.data.length + 1) (p.data ++ ':' :: u.data) = u.data := by
    rw [List.drop_append]
    rfl
  have hloop : splitLoop 1 (p.data ++ ':' :: u.data) = [p.data, u.data] := by
    simp only [splitLoop, Index_append_colon p.data u.data hp, hdrop]
    simp
  simp [Split, hd, hc, hloop]

/-! ## Facts about `Complete` -/

theorem Complete_of_length_ne (env : Collaborators) (o : CreateIdentityOptions)
    (cmd : Command) (f : RESTClientGetter) (args : List String) (cfg : RESTConfig)
    (client : IdentitiesGetter) (sub : CreateSubcommandOptions)
    (hcfg : f.ToRESTConfig = .ok cfg) (hcl : env.NewForConfig cfg = .ok client)
    (hsub : env.SubcommandComplete o.CreateSubcommandOptions f cmd args = (sub, none))
    (hlen : (Split sub.Name).length ≠ 2) :
    Complete env o cmd f args =
      ({ o with IdentityClient := some client, CreateSubcommandOptions := sub },
        some formatError) := by
  simp [Complete, hcfg, hcl, hsub, hlen]

theorem Complete_of_Split_pair (env : Collaborators) (o : CreateIdentityOptions)
    (cmd : Command) (f : RESTClientGetter) (args : List String) (cfg : RESTConfig)
    (client : IdentitiesGetter) (sub : CreateSubcommandOptions) (a b : String)
    (hcfg : f.ToRESTConfig = .ok cfg) (hcl : env.NewForConfig cfg = .ok client)
    (hsub : env.SubcommandComplete o.CreateSubcommandOptions f cmd args = (sub, none))
    (hsplit : Split sub.Name = [a, b]) :
    Complete env o cmd f args =
      ({ CreateSubcommandOptions := sub, ProviderName := a, ProviderUserName := b,
         IdentityClient := some client }, none) := by
  simp [Complete, hcfg, hcl, hsub, hsplit]

theorem Complete_of_length_eq (env : Collaborators) (o : CreateIdentityOptions)
    (cmd : Command) (f : RESTClientGetter) (args : List String) (cfg : RESTConfig)
    (client : IdentitiesGetter) (sub : CreateSubcommandOptions)
    (hcfg : f.ToRESTConfig = .ok cfg) (hcl : env.NewForConfig cfg = .ok client)
    (hsub : env.SubcommandComplete o.CreateSubcommandOptions f cmd args = (sub, none))
    (hlen : (Split sub.Name).length = 2) :
    (Complete env o cmd f args).2 = none := by
  simp [Complete, hcfg, hcl, hsub, hlen]

/-! ## The format check of `Complete` -/

/-- C1, as stated, fails: `":bob"` does not split into two non-empty segments (its
provider name is empty), the client resolves, the shared completion succeeds with
the name `":bob"`, and `Complete` returns no error; it stores the empty provider
name. -/
theorem Complete_accepts_empty_provider_name :
    specTwoNonEmptySegments ":bob" = false ∧
    sampleGetter.ToRESTConfig = .ok ⟨"https://api.example.com:6443"⟩ ∧
    sampleEnv.NewForConfig ⟨"https://api.example.com:6443"⟩ = .ok sampleClient ∧
    (sampleEnv.SubcommandComplete (initialOptions .DryRunNone false).CreateSubcommandOptions
      sampleGetter sampleCommand [":bob"]).2 = none ∧
    (sampleEnv.SubcommandComplete (initialOptions .DryRunNone false).CreateSubcommandOptions
      sampleGetter sampleCommand [":bob"]).1.Name = ":bob" ∧
    (Complete sampleEnv (initialOptions .DryRunNone false) sampleCommand sampleGetter
      [":bob"]).2 = none ∧
    (Complete sampleEnv (initialOptions .DryRunNone false) sampleCommand sampleGetter
      [":bob"]).1.ProviderName = "" ∧
    (Complete sampleEnv (initialOptions .DryRunNone false) sampleCommand sampleGetter
      [":bob"]).1.ProviderUserName = "bob" := by
  refine ⟨by decide, rfl, rfl, rfl, rfl, by decide, by decide, by decide⟩

/-- C1, amended: with client resolution and the shared completion succeeding and the
name set to `spec`, `Complete` returns the argument-format error exactly when `spec`
does not split on `':'` into exactly two segments, that is when it does not hold
exactly one `':'`; with exactly one `':'` it returns no error, whether or not a
segment is empty. -/
theorem Complete_format_error_iff_colon_count (env : Collaborators)
    (o : CreateIdentityOptions) (cmd : Command) (f : RESTClientGetter) (args : List String)
    (cfg : RESTConfig) (client : IdentitiesGetter) (sub : CreateSubcommandOptions)
    (spec : String)
    (hcfg : f.ToRESTConfig = .ok cfg) (hcl : env.NewForConfig cfg = .ok client)
    (hsub : env.SubcommandComplete o.CreateSubcommandOptions f cmd args = (sub, none))
    (hname : sub.Name = spec) :
    ((Split spec).length = 2 ↔ Count spec.data = 1) ∧
    (Count spec.data ≠ 1 → (Complete env o cmd f args).2 = some formatError) ∧
    (Count spec.data = 1 → (Complete env o cmd f args).2 = none) := by
  subst hname
  have hlen := length_Split sub.Name
  refine ⟨by omega, fun h => ?_, fun h => ?_⟩
  · rw [Complete_of_length_ne env o cmd f args cfg client sub hcfg hcl hsub (by omega)]
  · exact Complete_of_length_eq env o cmd f args cfg client sub hcfg hcl hsub (by omega)

/-- Instances of the amended C1: `"a:b:c"` and `"ldap"` are refused with the format
error, `"ldap:"` is accepted. -/
theorem Complete_format_error_iff_colon_count_witness :
    (Complete sampleEnv (initialOptions .DryRunNone false) sampleCommand sampleGetter
      ["a:b:c"]).2 = some formatError ∧
    (Complete sampleEnv (initialOptions .DryRunNone false) sampleCommand sampleGetter
      ["ldap"]).2 = some formatError ∧
    (Complete sampleEnv (initialOptions .DryRunNone false) sampleCommand sampleGetter
      ["ldap:"]).2 = none :=
  ⟨(Complete_format_error_iff_colon_count sampleEnv (initialOptions .DryRunNone false)
      sampleCommand sampleGetter ["a:b:c"] ⟨"https://api.example.com:6443"⟩ sampleClient
      _ "a:b:c" rfl rfl rfl rfl).2.1 (by decide),
   (Complete_format_error_iff_colon_count sampleEnv (initialOptions .DryRunNone false)
      sampleCommand sampleGetter ["ldap"] ⟨"https://api.example.com:6443"⟩ sampleClient
      _ "ldap" rfl rfl rfl rfl).2.1 (by decide),
   (Complete_format_error_iff_colon_count sampleEnv (initialOptions .DryRunNone false)
      sampleCommand sampleGetter ["ldap:"] ⟨"https://api.example.com:6443"⟩ sampleClient
      _ "ldap:" rfl rfl rfl rfl).2.2 (by decide)⟩

/-- C2: when `Complete` succeeds and the name it parsed is `p ++ ":" ++ u` with no
`':'` in `p` or `u`, it has set `ProviderName = p` and `ProviderUserName = u`; the two
fields joined by `":"` give the name back, neither holds a colon, and the record
`Run` builds from the completed options carries `p` and `u`. -/
theorem Complete_sets_provider_fields (env : Collaborators) (o : CreateIdentityOptions)
    (cmd : Command) (f : RESTClientGetter) (args : List String) (p u : String)
    (hok : (Complete env o cmd f args).2 = none)
    (hname : (Complete env o cmd f args).1.CreateSubcommandOptions.Name = p ++ ":" ++ u)
    (hp : ':' ∉ p.data) (hu : ':' ∉ u.data) :
    (Complete env o cmd f args).1.ProviderName = p ∧
    (Complete env o cmd f args).1.ProviderUserName = u ∧
    (Complete env o cmd f args).1.ProviderName ++ ":" ++
        (Complete env o cmd f args).1.ProviderUserName =
      (Complete env o cmd f args).1.CreateSubcommandOptions.Name ∧
    ':' ∉ (Complete env o cmd f args).1.ProviderName.data ∧
    ':' ∉ (Complete env o cmd f args).1.ProviderUserName.data ∧
    (newIdentity env (Complete env o cmd f args).1).ProviderName = p ∧
    (newIdentity env (Complete env o cmd f args).1).ProviderUserName = u := by
  cases hcfg : f.ToRESTConfig with
  | error e => simp [Complete, hcfg] at hok
  | ok cfg =>
    cases hcl : env.NewForConfig cfg with
    | error e => simp [Complete, hcfg, hcl] at hok
    | ok client =>
      cases hsub : env.SubcommandComplete o.CreateSubcommandOptions f cmd args with
      | mk sub err =>
        cases err with
        | some e => simp [Complete, hcfg, hcl, hsub] at hok
        | none =>
          have hn : sub.Name = p ++ ":" ++ u := by
            by_cases hlen : (Split sub.Name).length = 2
            · simpa [Complete, hcfg, hcl, hsub, hlen] using hname
            · simp [Complete, hcfg, hcl, hsub, hlen] at hok
          have hsplit : Split sub.Name = [p, u] := by
            rw [hn]
            exact Split_pair p u hp hu
          rw [Complete_of_Split_pair env o cmd f args cfg client sub p u hcfg hcl hsub hsplit]
          simp [newIdentity, hn, hp, hu]

/-- The example of the command's help text: for `acme_ldap:adamjones` the completed
options and the record built from them hold `acme_ldap` and `adamjones`. -/
theorem Complete_sets_provider_fields_witness :
    (Complete sampleEnv (initialOptions .DryRunNone false) sampleCommand sampleGetter
      ["acme_ldap:adamjones"]).1.ProviderName = "acme_ldap" ∧
    (Complete sampleEnv (initialOptions .DryRunNone false) sampleCommand sampleGetter
      ["acme_ldap:adamjones"]).1.ProviderUserName = "adamjones" ∧
    (newIdentity sampleEnv (Complete sampleEnv (initialOptions .DryRunNone false)
      sampleCommand sampleGetter ["acme_ldap:adamjones"]).1).ProviderName = "acme_ldap" ∧
    (newIdentity sampleEnv (Complete sampleEnv (initialOptions .DryRunNone false)
      sampleCommand sampleGetter ["acme_ldap:adamjones"]).1).ProviderUserName =
        "adamjones" :=
  have h := Complete_sets_provider_fields sampleEnv (initialOptions .DryRunNone false)
    sampleCommand sampleGetter ["acme_ldap:adamjones"] "acme_ldap" "adamjones"
    (by decide) (by decide) (by decide) (by decide)
  ⟨h.1, h.2.1, h.2.2.2.2.2.1, h.2.2.2.2.2.2⟩

/-! ## Errors of the collaborators of `Complete` -/

/-- C8: an error `e` of configuration resolution, of client construction or of the
shared completion is what `Complete` returns, whatever the arguments are (the format
check comes later), and `ProviderName` and `ProviderUserName` keep their values. -/
theorem Complete_returns_collaborator_error (env : Collaborators)
    (o : CreateIdentityOptions) (cmd : Command) (f : RESTClientGetter) (args : List String)
    (e : GoError)
    (h : f.ToRESTConfig = .error e ∨
      (∃ cfg, f.ToRESTConfig = .ok cfg ∧ env.NewForConfig cfg = .error e) ∨
      (∃ cfg client, f.ToRESTConfig = .ok cfg ∧ env.NewForConfig cfg = .ok client ∧
        (env.SubcommandComplete o.CreateSubcommandOptions f cmd args).2 = some e)) :
    (Complete env o cmd f args).2 = some e ∧
    (Complete env o cmd f args).1.ProviderName = o.ProviderName ∧
    (Complete env o cmd f args).1.ProviderUserName = o.ProviderUserName := by
  rcases h with h | ⟨cfg, hcfg, hcl⟩ | ⟨cfg, client, hcfg, hcl, hsub⟩
  · simp [Complete, h]
  · simp [Complete, hcfg, hcl]
  · simp [Complete, hcfg, hcl, hsub]

/-- Instances of C8 for the malformed argument `"a:b:c"` and for a missing one: the
error of each of the three collaborators is returned as it is. -/
theorem Complete_returns_collaborator_error_witness :
    (Complete sampleEnv (initialOptions .DryRunNone false) sampleCommand failingGetter
      ["a:b:c"]).2 = some ⟨"no configuration has been provided"⟩ ∧
    (Complete noClientEnv (initialOptions .DryRunNone false) sampleCommand sampleGetter
      ["a:b:c"]).2 = some ⟨"invalid configuration"⟩ ∧
    (Complete sampleEnv (initialOptions .DryRunNone false) sampleCommand sampleGetter
      []).2 = some ⟨"exactly one NAME is required"⟩ :=
  ⟨(Complete_returns_collaborator_error sampleEnv (initialOptions .DryRunNone false)
      sampleCommand failingGetter ["a:b:c"] ⟨"no configuration has been provided"⟩
      (Or.inl rfl)).1,
   (Complete_returns_collaborator_error noClientEnv (initialOptions .DryRunNone false)
      sampleCommand sampleGetter ["a:b:c"] ⟨"invalid configuration"⟩
      (Or.inr (Or.inl ⟨⟨"https://api.example.com:6443"⟩, rfl, rfl⟩))).1,
   (Complete_returns_collaborator_error sampleEnv (initialOptions .DryRunNone false)
      sampleCommand sampleGetter [] ⟨"exactly one NAME is required"⟩
      (Or.inr (Or.inr ⟨⟨"https://api.example.com:6443"⟩, sampleClient, rfl, rfl, rfl⟩))).1⟩

/-! ## The handler stops at a failed `Complete` -/

/-- C6, as stated, fails: `":bob"` does not split into two non-empty segments, so
by the wording of the specification it fails validation, yet `Complete` returns no
error and the handler goes on to `Run`: one create request is sent, its answer is
printed, and `ProviderUserName` has changed from `""` to `"bob"`. -/
theorem runCommand_runs_on_empty_provider_name :
    specTwoNonEmptySegments ":bob" = false ∧
    (initialOptions .DryRunNone false).ProviderUserName = "" ∧
    (runCommand sampleEnv (initialOptions .DryRunNone false) sampleCommand sampleGetter
      [":bob"]).2.outcome = .returned none ∧
    createRequests (runCommand sampleEnv (initialOptions .DryRunNone false) sampleCommand
      sampleGetter [":bob"]).2.trace =
      [({ TypeMeta := { Kind := "Identity", APIVersion := "user.openshift.io/v1" }
          ProviderName := ""
          ProviderUserName := "bob" },
        { DryRun := [], FieldManager := "", FieldValidation := "" })] ∧
    printCalls (runCommand sampleEnv (initialOptions .DryRunNone false) sampleCommand
      sampleGetter [":bob"]).2.trace =
      [({ TypeMeta := { Kind := "Identity", APIVersion := "user.openshift.io/v1" }
          ObjectMeta := { Name := ":bob", UID := "5f3e", ResourceVersion := "101" }
          ProviderName := ""
          ProviderUserName := "bob" }, ⟨1⟩)] ∧
    (runCommand sampleEnv (initialOptions .DryRunNone false) sampleCommand sampleGetter
      [":bob"]).1.ProviderName = "" ∧
    (runCommand sampleEnv (initialOptions .DryRunNone false) sampleCommand sampleGetter
      [":bob"]).1.ProviderUserName = "bob" := by
  refine ⟨by decide, rfl, by decide, by decide, by decide, by decide, by decide⟩

/-- C6, amended: when the shared completion yields a name `spec` that does not split
on `':'` into exactly two segments (it does not hold exactly one `':'`), the handler
ends with an error of `Complete`, which is the format error once the client has
resolved; it issues no create request, prints nothing, and `ProviderName` and
`ProviderUserName` keep their values. A name with exactly one `':'` and an empty
segment is not covered: it passes `Complete`. -/
theorem runCommand_stops_at_Complete (env : Collaborators) (o : CreateIdentityOptions)
    (cmd : Command) (f : RESTClientGetter) (args : List String)
    (sub : CreateSubcommandOptions) (spec : String)
    (hsub : env.SubcommandComplete o.CreateSubcommandOptions f cmd args = (sub, none))
    (hname : sub.Name = spec) (hbad : (Split spec).length ≠ 2) :
    (∃ e, (runCommand env o cmd f args).2 = ⟨.returned (some e), []⟩ ∧
      (Complete env o cmd f args).2 = some e ∧
      ((∃ cfg client, f.ToRESTConfig = .ok cfg ∧ env.NewForConfig cfg = .ok client) →
        e = formatError)) ∧
    createRequests (runCommand env o cmd f args).2.trace = [] ∧
    printCalls (runCommand env o cmd f args).2.trace = [] ∧
    (runCommand env o cmd f args).1.ProviderName = o.ProviderName ∧
    (runCommand env o cmd f args).1.ProviderUserName = o.ProviderUserName := by
  subst hname
  cases hcfg : f.ToRESTConfig with
  | error e =>
    simp [runCommand, Complete, hcfg, createRequests, printCalls]
  | ok cfg =>
    cases hcl : env.NewForConfig cfg with
    | error e =>
      simp [runCommand, Complete, hcfg, hcl, createRequests, printCalls]
    | ok client =>
      have hc := Complete_of_length_ne env o cmd f args cfg client sub hcfg hcl hsub hbad
      simp [runCommand, hc, createRequests, printCalls]

/-- Instance of the amended C6 for `"a:b:c"`: the handler ends with the format error, no event
has happened and the provider fields are still empty. -/
theorem runCommand_stops_at_Complete_witness :
    (Split "a:b:c").length ≠ 2 ∧
    createRequests (runCommand sampleEnv (initialOptions .DryRunNone false) sampleCommand
      sampleGetter ["a:b:c"]).2.trace = [] ∧
    printCalls (runCommand sampleEnv (initialOptions .DryRunNone false) sampleCommand
      sampleGetter ["a:b:c"]).2.trace = [] ∧
    (runCommand sampleEnv (initialOptions .DryRunNone false) sampleCommand
      sampleGetter ["a:b:c"]).1.ProviderName = "" ∧
    (runCommand sampleEnv (initialOptions .DryRunNone false) sampleCommand
      sampleGetter ["a:b:c"]).1.ProviderUserName = "" :=
  ⟨by decide,
   (runCommand_stops_at_Complete sampleEnv (initialOptions .DryRunNone false)
      sampleCommand sampleGetter ["a:b:c"] _ "a:b:c" rfl rfl (by decide)).2⟩

/-! ## `Run` -/

/-- C3: under the client-side dry-run strategy, when the annotation step succeeds
with `obj`, `Run` sends no create request, hands exactly `obj` (the local identity
as annotated, which no server has touched) to the printer with the configured
stream, and returns what the printer returns. -/
theorem Run_client_dry_run (env : Collaborators) (o : CreateIdentityOptions)
    (obj : Identity)
    (hdry : o.CreateSubcommandOptions.DryRunStrategy = .DryRunClient)
    (hann : env.CreateOrUpdateAnnotation o.CreateSubcommandOptions.CreateAnnotation
      (newIdentity env o) = .ok obj) :
    (Run env o).trace = [.print obj o.CreateSubcommandOptions.Out] ∧
    createRequests (Run env o).trace = [] ∧
    printCalls (Run env o).trace = [(obj, o.CreateSubcommandOptions.Out)] ∧
    (Run env o).outcome =
      .returned (o.CreateSubcommandOptions.Printer.PrintObj obj
        o.CreateSubcommandOptions.Out) := by
  simp [Run, hdry, hann, createRequests, printCalls]

/-- Instance of C3: with the failing client in place, a client-side dry run prints
the local identity, which has no name, UID or resource version, and sends nothing. -/
theorem Run_client_dry_run_witness :
    (Run sampleEnv (completedOptions .DryRunClient false failingClient)).trace =
      [.print
        { TypeMeta := { Kind := "Identity", APIVersion := "user.openshift.io/v1" }
          ProviderName := "acme_ldap"
          ProviderUserName := "adamjones" } ⟨1⟩] ∧
    (Run sampleEnv (completedOptions .DryRunClient false failingClient)).outcome =
      .returned none :=
  have h := Run_client_dry_run sampleEnv (completedOptions .DryRunClient false failingClient)
    (newIdentity sampleEnv (completedOptions .DryRunClient false failingClient)) rfl rfl
  ⟨h.1, h.2.2.2⟩

/-- C4: under any strategy other than client-side, when the annotation step succeeds
with `obj` and the create call succeeds with `created`, the one object `Run` hands
to the printer is `created`, with the configured output stream, and `Run` returns
what the printer returns. -/
theorem Run_prints_created_object (env : Collaborators) (o : CreateIdentityOptions)
    (client : IdentitiesGetter) (obj created : Identity)
    (hdry : o.CreateSubcommandOptions.DryRunStrategy ≠ .DryRunClient)
    (hann : env.CreateOrUpdateAnnotation o.CreateSubcommandOptions.CreateAnnotation
      (newIdentity env o) = .ok obj)
    (hclient : o.IdentityClient = some client)
    (hcreate : client.Create obj {} = .ok created) :
    (Run env o).trace =
      [.create obj {}, .print created o.CreateSubcommandOptions.Out] ∧
    printCalls (Run env o).trace = [(created, o.CreateSubcommandOptions.Out)] ∧
    (Run env o).outcome =
      .returned (o.CreateSubcommandOptions.Printer.PrintObj created
        o.CreateSubcommandOptions.Out) := by
  simp [Run, hdry, hann, hclient, hcreate, printCalls]

/-- Instance of C4: the printed object carries the name, UID and resource version
that the sample server assigned. -/
theorem Run_prints_created_object_witness :
    printCalls (Run sampleEnv (completedOptions .DryRunNone false sampleClient)).trace =
      [({ TypeMeta := { Kind := "Identity", APIVersion := "user.openshift.io/v1" }
          ObjectMeta := { Name := "acme_ldap:adamjones", UID := "5f3e",
                          ResourceVersion := "101" }
          ProviderName := "acme_ldap"
          ProviderUserName := "adamjones" }, ⟨1⟩)] :=
  (Run_prints_created_object sampleEnv (completedOptions .DryRunNone false sampleClient)
    sampleClient (newIdentity sampleEnv (completedOptions .DryRunNone false sampleClient))
    _ (by decide) rfl rfl rfl).2.1

/-- C5: when the create call returns the error `e`, `Run` returns `e` itself, its
trace is the single create request (no second attempt), and the printer is not
called. -/
theorem Run_returns_create_error (env : Collaborators) (o : CreateIdentityOptions)
    (client : IdentitiesGetter) (obj : Identity) (e : GoError)
    (hdry : o.CreateSubcommandOptions.DryRunStrategy ≠ .DryRunClient)
    (hann : env.CreateOrUpdateAnnotation o.CreateSubcommandOptions.CreateAnnotation
      (newIdentity env o) = .ok obj)
    (hclient : o.IdentityClient = some client)
    (hcreate : client.Create obj {} = .error e) :
    (Run env o).outcome = .returned (some e) ∧
    (Run env o).trace = [.create obj {}] ∧
    createRequests (Run env o).trace = [(obj, {})] ∧
    printCalls (Run env o).trace = [] := by
  simp [Run, hdry, hann, hclient, hcreate, createRequests, printCalls]

/-- Instance of C5: the refusal of the sample server is what `Run` returns. -/
theorem Run_returns_create_error_witness :
    (Run sampleEnv (completedOptions .DryRunServer false failingClient)).outcome =
      .returned (some ⟨"identities is forbidden"⟩) ∧
    printCalls (Run sampleEnv (completedOptions .DryRunServer false failingClient)).trace
      = [] :=
  have h := Run_returns_create_error sampleEnv
    (completedOptions .DryRunServer false failingClient) failingClient
    (newIdentity sampleEnv (completedOptions .DryRunServer false failingClient))
    ⟨"identities is forbidden"⟩ (by decide) rfl rfl rfl
  ⟨h.1, h.2.2.2⟩

/-- C9: for an option state with a resolved client whose annotation step succeeds
with `obj`, `Run` issues no create request under the client-side strategy and
exactly one under any other; that request carries `obj` and the empty create
options, so the request sent under the server-side strategy is the one sent with
dry-run off. -/
theorem Run_create_request_count (env : Collaborators) (o : CreateIdentityOptions)
    (client : IdentitiesGetter) (obj : Identity)
    (hann : env.CreateOrUpdateAnnotation o.CreateSubcommandOptions.CreateAnnotation
      (newIdentity env o) = .ok obj)
    (hclient : o.IdentityClient = some client) :
    (o.CreateSubcommandOptions.DryRunStrategy = .DryRunClient →
      createRequests (Run env o).trace = []) ∧
    (o.CreateSubcommandOptions.DryRunStrategy ≠ .DryRunClient →
      createRequests (Run env o).trace =
        [(obj, { DryRun := [], FieldManager := "", FieldValidation := "" })]) ∧
    createRequests (Run env (withDryRunStrategy o .DryRunClient)).trace = [] ∧
    createRequests (Run env (withDryRunStrategy o .DryRunServer)).trace =
      [(obj, { DryRun := [], FieldManager := "", FieldValidation := "" })] ∧
    createRequests (Run env (withDryRunStrategy o .DryRunServer)).trace =
      createRequests (Run env (withDryRunStrategy o .DryRunNone)).trace := by
  have hann2 : ∀ s, env.CreateOrUpdateAnnotation
      (withDryRunStrategy o s).CreateSubcommandOptions.CreateAnnotation
      (newIdentity env (withDryRunStrategy o s)) = .ok obj := fun s => hann
  have hcl2 : ∀ s, (withDryRunStrategy o s).IdentityClient = some client := fun s => hclient
  have hst : ∀ s, (withDryRunStrategy o s).CreateSubcommandOptions.DryRunStrategy = s :=
    fun s => rfl
  have key : ∀ o2 : CreateIdentityOptions,
      env.CreateOrUpdateAnnotation o2.CreateSubcommandOptions.CreateAnnotation
        (newIdentity env o2) = .ok obj →
      o2.IdentityClient = some client →
      createRequests (Run env o2).trace =
        if o2.CreateSubcommandOptions.DryRunStrategy = .DryRunClient then []
        else [(obj, { DryRun := [], FieldManager := "", FieldValidation := "" })] := by
    intro o2 h1 h2
    by_cases hd : o2.CreateSubcommandOptions.DryRunStrategy = .DryRunClient
    · simp [Run, h1, hd, createRequests]
    · cases hc : client.Create obj {} with
      | error e => simp [Run, h1, h2, hd, hc, createRequests]
      | ok created => simp [Run, h1, h2, hd, hc, createRequests]
  refine ⟨fun h => ?_, fun h => ?_, ?_, ?_, ?_⟩
  · rw [key o hann hclient, if_pos h]
  · rw [key o hann hclient, if_neg h]
  · rw [key _ (hann2 _) (hcl2 _), hst]; simp
  · rw [key _ (hann2 _) (hcl2 _), hst]; simp
  · rw [key _ (hann2 _) (hcl2 _), key _ (hann2 _) (hcl2 _), hst, hst]; simp

/-- Instance of C9: one request with empty options under the server-side strategy,
none under the client-side one. -/
theorem Run_create_request_count_witness :
    createRequests (Run sampleEnv (completedOptions .DryRunServer false sampleClient)).trace
      = [(newIdentity sampleEnv (completedOptions .DryRunServer false sampleClient),
          { DryRun := [], FieldManager := "", FieldValidation := "" })] ∧
    createRequests (Run sampleEnv (completedOptions .DryRunClient false sampleClient)).trace
      = [] :=
  ⟨(Run_create_request_count sampleEnv (completedOptions .DryRunServer false sampleClient)
      sampleClient _ rfl rfl).2.1 (by decide),
   (Run_create_request_count sampleEnv (completedOptions .DryRunClient false sampleClient)
      sampleClient _ rfl rfl).1 rfl⟩

/-- C10: the identity `Run` builds has kind `"Identity"`, the group/version string of
the user API group as API version, the provider fields of the options, and zero
values everywhere else; it is this record the annotation step receives, and when
that step fails with `e`, `Run` returns `e` without a create request or a print. -/
theorem Run_builds_identity (env : Collaborators) (o : CreateIdentityOptions) :
    newIdentity env o =
      { TypeMeta := { Kind := "Identity", APIVersion := env.SchemeGroupVersionString }
        ObjectMeta :=
          { Name := "", GenerateName := "", Namespace := "", UID := "",
            ResourceVersion := "", Generation := 0, Labels := [], Annotations := [] }
        ProviderName := o.ProviderName
        ProviderUserName := o.ProviderUserName
        User :=
          { Kind := "", Namespace := "", Name := "", UID := "", APIVersion := "",
            ResourceVersion := "", FieldPath := "" }
        Extra := [] } ∧
    ∀ e : GoError,
      env.CreateOrUpdateAnnotation o.CreateSubcommandOptions.CreateAnnotation
        { TypeMeta := { Kind := "Identity", APIVersion := env.SchemeGroupVersionString }
          ObjectMeta :=
            { Name := "", GenerateName := "", Namespace := "", UID := "",
              ResourceVersion := "", Generation := 0, Labels := [], Annotations := [] }
          ProviderName := o.ProviderName
          ProviderUserName := o.ProviderUserName
          User :=
            { Kind := "", Namespace := "", Name := "", UID := "", APIVersion := "",
              ResourceVersion := "", FieldPath := "" }
          Extra := [] } = .error e →
      Run env o = ⟨.returned (some e), []⟩ := by
  refine ⟨rfl, fun e h => ?_⟩
  have h2 : env.CreateOrUpdateAnnotation o.CreateSubcommandOptions.CreateAnnotation
      (newIdentity env o) = .error e := h
  simp [Run, h2]

/-- Instance of C10: the error of a failing annotation helper is what `Run` returns,
with an empty trace. -/
theorem Run_builds_identity_witness :
    Run noAnnotationEnv (completedOptions .DryRunNone true sampleClient) =
      ⟨.returned (some ⟨"unable to encode"⟩), []⟩ :=
  (Run_builds_identity noAnnotationEnv (completedOptions .DryRunNone true sampleClient)).2
    ⟨"unable to encode"⟩ rfl

/-- A successful `Run` has printed the annotated object under the client-side
strategy, and otherwise has sent it and printed the answer. -/
theorem Run_trace_of_success (env : Collaborators) (o : CreateIdentityOptions)
    (obj : Identity)
    (hann : env.CreateOrUpdateAnnotation o.CreateSubcommandOptions.CreateAnnotation
      (newIdentity env o) = .ok obj)
    (hok : (Run env o).outcome = .returned none) :
    (o.CreateSubcommandOptions.DryRunStrategy = .DryRunClient ∧
        (Run env o).trace = [.print obj o.CreateSubcommandOptions.Out]) ∨
      (o.CreateSubcommandOptions.DryRunStrategy ≠ .DryRunClient ∧
        ∃ created, (Run env o).trace =
          [.create obj { DryRun := [], FieldManager := "", FieldValidation := "" },
           .print created o.CreateSubcommandOptions.Out]) := by
  by_cases hd : o.CreateSubcommandOptions.DryRunStrategy = .DryRunClient
  · left
    refine ⟨hd, ?_⟩
    simp [Run, hann, hd]
  · right
    refine ⟨hd, ?_⟩
    cases hcl : o.IdentityClient with
    | none => simp [Run, hann, hd, hcl] at hok
    | some client =>
      cases hc : client.Create obj {} with
      | error e => simp [Run, hann, hd, hcl, hc] at hok
      | ok created =>
        refine ⟨created, ?_⟩
        simp [Run, hann, hd, hcl, hc]

/-- C7: with the annotation helper as the specification describes it, the flag set
and `Run` successful, the object that goes into the create request, or into the
printer under the client-side strategy, holds an annotation whose value is the
command line; the annotated object is built before the request and before the
print. -/
theorem Run_stamps_command_line (env : Collaborators) (o : CreateIdentityOptions)
    (key commandLine : String)
    (hmodel : env.CreateOrUpdateAnnotation = specCreateOrUpdateAnnotation key commandLine)
    (hflag : o.CreateSubcommandOptions.CreateAnnotation = true)
    (hok : (Run env o).outcome = .returned none) :
    ∃ obj : Identity,
      (key, commandLine) ∈ obj.ObjectMeta.Annotations ∧
      env.CreateOrUpdateAnnotation true (newIdentity env o) = .ok obj ∧
      ((o.CreateSubcommandOptions.DryRunStrategy = .DryRunClient ∧
          (Run env o).trace = [.print obj o.CreateSubcommandOptions.Out]) ∨
        (o.CreateSubcommandOptions.DryRunStrategy ≠ .DryRunClient ∧
          ∃ created, (Run env o).trace =
            [.create obj { DryRun := [], FieldManager := "", FieldValidation := "" },
             .print created o.CreateSubcommandOptions.Out])) := by
  have hann : env.CreateOrUpdateAnnotation o.CreateSubcommandOptions.CreateAnnotation
      (newIdentity env o) =
      .ok { newIdentity env o with
        ObjectMeta := { (newIdentity env o).ObjectMeta with
          Annotations := (key, commandLine) ::
            (newIdentity env o).ObjectMeta.Annotations.filter (fun kv => kv.1 ≠ key) } } := by
    rw [hmodel, hflag]; rfl
  refine ⟨_, ?_, by rw [← hflag]; exact hann, Run_trace_of_success env o _ hann hok⟩
  simp

/-- Instance of C7: the request sent for `acme_ldap:adamjones` with the flag set
carries the command line as an annotation value. -/
theorem Run_stamps_command_line_witness :
    ∃ obj : Identity,
      ("command", "oc create identity acme_ldap:adamjones") ∈ obj.ObjectMeta.Annotations ∧
      recordingEnv.CreateOrUpdateAnnotation true
        (newIdentity recordingEnv (completedOptions .DryRunNone true sampleClient)) =
          .ok obj ∧
      (((completedOptions .DryRunNone true sampleClient).CreateSubcommandOptions.DryRunStrategy
            = .DryRunClient ∧
          (Run recordingEnv (completedOptions .DryRunNone true sampleClient)).trace =
            [.print obj (completedOptions .DryRunNone true sampleClient).CreateSubcommandOptions.Out])
        ∨
        ((completedOptions .DryRunNone true sampleClient).CreateSubcommandOptions.DryRunStrategy
            ≠ .DryRunClient ∧
          ∃ created,
            (Run recordingEnv (completedOptions .DryRunNone true sampleClient)).trace =
              [.create obj { DryRun := [], FieldManager := "", FieldValidation := "" },
               .print created
                 (completedOptions .DryRunNone true sampleClient).CreateSubcommandOptions.Out])) :=
  Run_stamps_command_line recordingEnv (completedOptions .DryRunNone true sampleClient)
    "command" "oc create identity acme_ldap:adamjones" rfl rfl (by decide)

end CreateIdentity
